import Mathlib

/-!
Verification of the eBay-Blu-Ray-Assist listing engine.

Shallow embedding of the MovieForm component (validation, record
transformation, submission) and of the listing page (store of submitted
items, CSV export request) into Lean, with theorems settling the spec
claims about validation, storage and export behaviour.

Field values coming out of the HTML form are strings, as in the source
component state; JS numeric parsing is modelled by explicit parse
functions returning `Option` (`none` plays the role of `NaN`), and the
JS comparisons `parseFloat(x) <= 0` / `parseInt(x) <= 0` are modelled by
predicates that are false on `NaN`, exactly as in JS.
-/

/-- Numeric value of a decimal digit character. -/
def digitVal (c : Char) : ℕ := c.toNat - 48

/-- Value of a list of decimal digit characters read left to right. -/
def digitsVal (l : List Char) : ℕ := l.foldl (fun a c => a * 10 + digitVal c) 0

/-- Exponent digits of a JS float literal: optional sign then digits;
an empty digit run contributes exponent 0 (JS parseFloat ignores a
trailing bare `e`). -/
def jsExponentDigits (cs : List Char) : ℤ :=
  match cs with
  | '-' :: r =>
      if (r.takeWhile Char.isDigit).isEmpty then 0
      else -(digitsVal (r.takeWhile Char.isDigit) : ℤ)
  | '+' :: r =>
      if (r.takeWhile Char.isDigit).isEmpty then 0
      else (digitsVal (r.takeWhile Char.isDigit) : ℤ)
  | _ =>
      if (cs.takeWhile Char.isDigit).isEmpty then 0
      else (digitsVal (cs.takeWhile Char.isDigit) : ℤ)

/-- Exponent part of a JS float literal, if the remaining input starts
with `e` or `E`. -/
def jsExponent (cs : List Char) : ℤ :=
  match cs with
  | 'e' :: r => jsExponentDigits r
  | 'E' :: r => jsExponentDigits r
  | _ => 0

/-- A finite JS number obtained from decimal parsing, represented
exactly as `mant * 10 ^ exp10`. The representation is kept
unnormalised so that every operation on it reduces in the kernel;
`DecNum.toRat` gives its value as a rational. -/
structure DecNum where
  mant : ℤ
  exp10 : ℤ
  deriving DecidableEq

/-- Rational value of a parsed JS decimal number. -/
def DecNum.toRat (d : DecNum) : ℚ := (d.mant : ℚ) * (10 : ℚ) ^ d.exp10

/-- Model of JS `parseFloat`: skip leading whitespace, optional sign,
integer digits, optional `.` and fraction digits, optional exponent;
the longest valid numeric prefix is parsed and trailing garbage is
ignored; `none` models `NaN` (no digits at all). The `Infinity`
literal, irrelevant to form input, is not modelled. -/
def jsParseFloat (s : String) : Option DecNum :=
  let cs := s.data.dropWhile Char.isWhitespace
  let signRest : ℤ × List Char :=
    match cs with
    | '-' :: r => (-1, r)
    | '+' :: r => (1, r)
    | _ => (1, cs)
  let intPart := signRest.2.takeWhile Char.isDigit
  let afterInt := signRest.2.dropWhile Char.isDigit
  let fracRest : List Char × List Char :=
    match afterInt with
    | '.' :: r => (r.takeWhile Char.isDigit, r.dropWhile Char.isDigit)
    | _ => ([], afterInt)
  if intPart.isEmpty && fracRest.1.isEmpty then none
  else
    some { mant := signRest.1 * (digitsVal (intPart ++ fracRest.1) : ℤ)
           exp10 := jsExponent fracRest.2 - fracRest.1.length }

/-- Model of JS `parseInt` with no radix argument on decimal input:
skip leading whitespace, optional sign, leading decimal digits; `none`
models `NaN`. (The hex `0x` path of parseInt never arises for the
numeric form fields modelled here.) -/
def jsParseInt (s : String) : Option ℤ :=
  let cs := s.data.dropWhile Char.isWhitespace
  let signRest : ℤ × List Char :=
    match cs with
    | '-' :: r => (-1, r)
    | '+' :: r => (1, r)
    | _ => (1, cs)
  let ds := signRest.2.takeWhile Char.isDigit
  if ds.isEmpty then none else some (signRest.1 * (digitsVal ds : ℤ))

/-- Model of JS `String.prototype.trim`: remove whitespace from both
ends of the string. -/
def jsTrim (s : String) : String :=
  ⟨((s.data.dropWhile Char.isWhitespace).reverse.dropWhile Char.isWhitespace).reverse⟩

/-- JS comparison `x <= 0` on a number that may be `NaN`: every
comparison against `NaN` is false. On a finite decimal the value is
`≤ 0` exactly when the mantissa is (`DecNum.mant_le_zero_iff`). -/
def jsNumLe0 : Option DecNum → Bool
  | none => false
  | some d => decide (d.mant ≤ 0)

/-- JS comparison `x <= 0` on an integer `parseInt` result that may be
`NaN`: every comparison against `NaN` is false. -/
def jsIntLe0 : Option ℤ → Bool
  | none => false
  | some n => decide (n ≤ 0)

/-- The MovieForm component state (`formData`), one string per bound
form control, exactly the fields initialised in the source. -/
structure FormData where
  title : String
  condition : String
  description : String
  price : String
  quantity : String
  location : String
  movieTitle : String
  studio : String
  genre : String
  subGenre : String
  director : String
  actors : String
  releaseYear : String
  rating : String
  runtime : String
  regionCode : String
  language : String
  caseType : String
  features : String
  s3Url : String
  averagePrice : String
  shippingCost : String
  totalCost : String
  userNotes : String
  deriving DecidableEq

/-- The initial `formData` state for a newly registered image title,
with the configured field defaults of the source component. -/
def initialForm (imageTitle : String) : FormData :=
  { title := imageTitle
    condition := "Used"
    description := ""
    price := "12.99"
    quantity := "1"
    location := "United States"
    movieTitle := ""
    studio := ""
    genre := ""
    subGenre := ""
    director := ""
    actors := ""
    releaseYear := ""
    rating := "PG-13"
    runtime := ""
    regionCode := "1"
    language := "English"
    caseType := "Standard Blu-ray Case"
    features := ""
    s3Url := ""
    averagePrice := ""
    shippingCost := "4.99"
    totalCost := ""
    userNotes := "" }

/-- `validateForm` of the MovieForm component: pushes one message per
failing check, in source order (title, image upload, price, quantity),
and returns the whole list. -/
def validateForm (fd : FormData) : List String :=
  (if jsTrim fd.title == "" then ["Listing title is required"] else [])
  ++ (if fd.s3Url == "" then ["Please upload image to AWS first"] else [])
  ++ (if fd.price == "" || jsNumLe0 (jsParseFloat fd.price) then
        ["Valid price is required"] else [])
  ++ (if fd.quantity == "" || jsIntLe0 (jsParseInt fd.quantity) then
        ["Valid quantity is required"] else [])

/-- The `metadata` object built by `transformToBluerayItem`. Nullable
JS number fields are `Option (Option _)`: the outer `none` models
`null`, the inner `none` models `NaN`. -/
structure MovieMetadata where
  title : String
  release_date : Option String
  genres : List String
  director : String
  actors : List String
  studio : String
  rating : String
  runtime : Option (Option ℤ)
  overview : Option String
  deriving DecidableEq

/-- The `price_data` object built by `transformToBluerayItem`. -/
structure PriceData where
  average_price : Option (Option DecNum)
  shipping_cost : Option (Option DecNum)
  total_cost : Option (Option DecNum)
  comparable_listings : List String
  deriving DecidableEq

/-- The `custom_fields` object built by `transformToBluerayItem`;
`price` and `quantity` are parsed unconditionally, so `none` models a
`NaN` value there. -/
structure CustomFields where
  price : Option DecNum
  quantity : Option ℤ
  description : String
  location : String
  region_code : String
  language : String
  case_type : String
  features : String
  deriving DecidableEq

/-- The BlurayItem record assembled by `transformToBluerayItem` and
handed to the page via `onSubmit`. -/
structure BlurayItem where
  title : String
  condition : String
  photos : List String
  metadata : MovieMetadata
  price_data : PriceData
  user_notes : String
  custom_fields : CustomFields
  deriving DecidableEq

/-- `transformToBluerayItem` of the MovieForm component: projects the
form state into the BlurayItem record, field by field as in the
source (`a || b` on strings becomes a test against the empty string,
`x ? f(x) : null` becomes an `Option` match, `filter(Boolean)` drops
empty strings). -/
def transformToBluerayItem (fd : FormData) : BlurayItem :=
  { title := fd.title
    condition := fd.condition
    photos := [fd.s3Url]
    metadata :=
      { title := if fd.movieTitle == "" then fd.title else fd.movieTitle
        release_date := if fd.releaseYear == "" then none else some (fd.releaseYear ++ "-01-01")
        genres := [fd.genre, fd.subGenre].filter (fun g => g != "")
        director := fd.director
        actors := if fd.actors == "" then [] else (fd.actors.splitOn ",").map jsTrim
        studio := fd.studio
        rating := fd.rating
        runtime := if fd.runtime == "" then none else some (jsParseInt fd.runtime)
        overview := none }
    price_data :=
      { average_price :=
          if fd.averagePrice == "" then none else some (jsParseFloat fd.averagePrice)
        shipping_cost :=
          if fd.shippingCost == "" then none else some (jsParseFloat fd.shippingCost)
        total_cost :=
          if fd.totalCost == "" then none else some (jsParseFloat fd.totalCost)
        comparable_listings := [] }
    user_notes := fd.userNotes
    custom_fields :=
      { price := jsParseFloat fd.price
        quantity := jsParseInt fd.quantity
        description := fd.description
        location := fd.location
        region_code := fd.regionCode
        language := fd.language
        case_type := fd.caseType
        features := fd.features } }

/-- `handleSubmit` of the MovieForm component: on any validation
failure it sets `errors.submit` to the failure list joined by `; ` and
returns without submitting (`Except.error`); otherwise it transforms
the form, marks it submitted and hands the item to the parent callback
(`Except.ok`). -/
def handleSubmit (fd : FormData) : Except String BlurayItem :=
  let validationErrors := validateForm fd
  if validationErrors.length > 0 then
    Except.error (String.intercalate "; " validationErrors)
  else
    Except.ok (transformToBluerayItem fd)

/-- The listing page state relevant to store and export behaviour:
the sequence of submitted items, the export error message, the number
of uploaded images and the index of the image being edited. (The
transient `isDownloading` flag, set and unset around one export, is
presentation state and is not modelled.) -/
structure PageState where
  submittedItems : List BlurayItem
  downloadError : String
  uploadedCount : ℕ
  currentIndex : ℕ
  deriving DecidableEq

/-- `handleItemSubmit` of the listing page: appends the submitted item
to `submittedItems` and auto-advances to the next image when one is
available. -/
def handleItemSubmit (s : PageState) (item : BlurayItem) : PageState :=
  { s with
    submittedItems := s.submittedItems ++ [item]
    currentIndex :=
      if s.currentIndex < s.uploadedCount - 1 then s.currentIndex + 1 else s.currentIndex }

/-- The outward effect of one `downloadCSV` call: the request body
posted to the CSV endpoint (the JSON-serialised submitted items), if
any, and the name under which the returned file is saved, if any. -/
structure ExportAction where
  request : Option (List BlurayItem)
  fileName : Option String
  deriving DecidableEq

/-- `downloadCSV` of the listing page (success path of the fetch): an
empty store aborts with the error message and performs no request;
otherwise the error is cleared, the whole `submittedItems` list is
posted, and the response is saved under a name built from the item
count alone. -/
def downloadCSV (s : PageState) : PageState × ExportAction :=
  if s.submittedItems.length = 0 then
    ({ s with downloadError := "No items to export" },
     { request := none, fileName := none })
  else
    ({ s with downloadError := "" },
     { request := some s.submittedItems
       fileName :=
         some ("ebay_bluray_listings_" ++ toString s.submittedItems.length ++ "_items.csv") })

/-- One submission round-trip: the MovieForm `handleSubmit` wired to
the page's `handleItemSubmit` through the `onSubmit` prop. Returns the
new page state and the submit error message, if any. -/
def submitFlow (s : PageState) (fd : FormData) : PageState × Option String :=
  match handleSubmit fd with
  | Except.error e => (s, some e)
  | Except.ok item => (handleItemSubmit s item, none)

/-- The fixed option list of the condition select control, in source
order. -/
def conditionOptions : List String :=
  ["New", "Like New", "Very Good", "Good", "Acceptable", "Used"]

/-- The condition domain stated by the spec (for comparison with the
source select options; this definition follows the spec text, not the
source). -/
def specConditionDomain : List String :=
  ["New", "New other", "Used", "Very Good", "Good", "Acceptable"]

/-- Modelled from the spec: the Defaults Resolver of the mcp-server
(its `config.py`/`server.py` are not under src, only the README that
documents them). Configured default condition per the documented
default settings. -/
def defaultCondition : String := "Very Good"

/-- Modelled from the spec: the fixed coercion lookup table of the
Defaults Resolver, mapping caller override phrases to condition enum
values, e.g. the phrase `like new` to the enum value `New other`. -/
def conditionCoercionTable : List (String × String) :=
  [("new", "New"), ("like new", "New other"), ("used", "Used"),
   ("very good", "Very Good"), ("good", "Good"), ("acceptable", "Acceptable")]

/-- Modelled from the spec: the error raised for an override value
missing from the coercion table. -/
inductive ResolveError where
  | UnrecognizedOverride (field value : String)
  deriving DecidableEq

/-- Modelled from the spec: condition resolution of the Defaults
Resolver. Start from the caller-supplied field if present, else the
configured default; a caller override for `condition` replaces it
through the coercion table, and an override value not in the table
fails with `UnrecognizedOverride` instead of falling back to the
default. -/
def resolveCondition (partialCondition : Option String)
    (overrides : List (String × String)) : Except ResolveError String :=
  match overrides.lookup "condition" with
  | none =>
      match partialCondition with
      | some c => Except.ok c
      | none => Except.ok defaultCondition
  | some v =>
      match conditionCoercionTable.lookup v with
      | some c => Except.ok c
      | none => Except.error (ResolveError.UnrecognizedOverride "condition" v)

/-- A form state in which all four validation checks fail: empty
title, no uploaded image, price and quantity zero. -/
def fdAllBad : FormData :=
  { initialForm "" with price := "0", quantity := "0" }

/-- A form state that is valid except that no image was uploaded to
AWS (`s3Url` still empty), i.e. a record with zero photo references. -/
def fdNoPhoto : FormData := initialForm "The Dark Knight"

/-- A form state whose price field is the non-numeric string `abc`
(parsing to `NaN`), with every other check satisfied. -/
def fdNaNPrice : FormData :=
  { initialForm "The Dark Knight" with
    s3Url := "https://bucket.s3.amazonaws.com/dark-knight.jpg", price := "abc" }

/-- A complete, valid form whose condition is the select option
`Like New`. -/
def fdLikeNew : FormData :=
  { initialForm "The Dark Knight" with
    s3Url := "https://bucket.s3.amazonaws.com/dark-knight.jpg",
    condition := "Like New", price := "9.99" }

/-- A complete, valid form for one disc. -/
def fdItemA : FormData :=
  { initialForm "The Dark Knight" with
    s3Url := "https://bucket.s3.amazonaws.com/dark-knight.jpg",
    condition := "Very Good", price := "9.99" }

/-- A complete, valid form for a second, different disc. -/
def fdItemB : FormData :=
  { initialForm "Inception" with
    s3Url := "https://bucket.s3.amazonaws.com/inception.jpg", price := "14.99" }

/-- The page state with an empty store. -/
def pageEmpty : PageState :=
  { submittedItems := [], downloadError := "", uploadedCount := 0, currentIndex := 0 }

/-- A page state holding the single submitted record of `fdItemA`. -/
def pageA : PageState :=
  { submittedItems := [transformToBluerayItem fdItemA], downloadError := ""
    uploadedCount := 2, currentIndex := 1 }

/-- A page state holding the single submitted record of `fdItemB`. -/
def pageB : PageState :=
  { submittedItems := [transformToBluerayItem fdItemB], downloadError := ""
    uploadedCount := 1, currentIndex := 0 }

example : jsParseFloat "12.99" = some { mant := 1299, exp10 := -2 } := by decide
example : jsParseFloat "abc" = none := by decide
example : jsParseFloat "-3" = some { mant := -3, exp10 := 0 } := by decide
example : jsParseFloat "1e3" = some { mant := 1, exp10 := 3 } := by decide
example : jsParseInt "1" = some 1 := by decide
example : jsParseInt "0.5" = some 0 := by decide
example : jsParseInt "xyz" = none := by decide
example : validateForm (initialForm "The Dark Knight") =
    ["Please upload image to AWS first"] := by decide

/-- The value of a parsed decimal is nonpositive exactly when its
mantissa is, justifying the mantissa-based embedding of the JS
comparison `parseFloat(x) <= 0`. -/
theorem DecNum.mant_le_zero_iff (d : DecNum) : d.toRat ≤ 0 ↔ d.mant ≤ 0 := by
  have hp : (0 : ℚ) < (10 : ℚ) ^ d.exp10 := by positivity
  unfold DecNum.toRat
  constructor
  · intro h
    by_contra hm
    push_neg at hm
    have : (0 : ℚ) < (d.mant : ℚ) * (10 : ℚ) ^ d.exp10 := by
      have : (0 : ℚ) < (d.mant : ℚ) := by exact_mod_cast hm
      positivity
    linarith
  · intro h
    have : (d.mant : ℚ) ≤ 0 := by exact_mod_cast h
    exact mul_nonpos_of_nonpos_of_nonneg this (le_of_lt hp)


/-- On a `parseFloat` result, the JS check `x <= 0` is false exactly
when every successfully parsed value is strictly positive (a `NaN`
result makes the check vacuously false, as in JS). -/
theorem jsNumLe0_eq_false_iff (x : Option DecNum) :
    jsNumLe0 x = false ↔ ∀ d, x = some d → 0 < d.toRat := by
  cases x with
  | none => simp [jsNumLe0]
  | some d =>
      have hiff : (0 < d.mant) ↔ (0 < d.toRat) := by
        rw [lt_iff_not_le, lt_iff_not_le]
        exact not_congr (DecNum.mant_le_zero_iff d).symm
      simp only [jsNumLe0, decide_eq_false_iff_not, not_le, Option.some.injEq,
        forall_eq, forall_eq']
      exact hiff

/-- On a `parseInt` result, the JS check `x <= 0` is false exactly
when every successfully parsed integer is strictly positive. -/
theorem jsIntLe0_eq_false_iff (x : Option ℤ) :
    jsIntLe0 x = false ↔ ∀ n, x = some n → 0 < n := by
  cases x <;> simp [jsIntLe0, not_le]

/-- The title failure message is reported exactly when the trimmed
title is empty. -/
theorem mem_validateForm_title (fd : FormData) :
    "Listing title is required" ∈ validateForm fd ↔ jsTrim fd.title = "" := by
  unfold validateForm
  split_ifs <;> simp_all

/-- The image-upload failure message is reported exactly when no AWS
image URL is present. -/
theorem mem_validateForm_photo (fd : FormData) :
    "Please upload image to AWS first" ∈ validateForm fd ↔ fd.s3Url = "" := by
  unfold validateForm
  split_ifs <;> simp_all

/-- The price failure message is reported exactly when the price field
is empty or parses to a nonpositive number. -/
theorem mem_validateForm_price (fd : FormData) :
    "Valid price is required" ∈ validateForm fd ↔
      (fd.price = "" ∨ jsNumLe0 (jsParseFloat fd.price) = true) := by
  unfold validateForm
  split_ifs <;> simp_all

/-- The quantity failure message is reported exactly when the quantity
field is empty or parses to a nonpositive integer. -/
theorem mem_validateForm_quantity (fd : FormData) :
    "Valid quantity is required" ∈ validateForm fd ↔
      (fd.quantity = "" ∨ jsIntLe0 (jsParseInt fd.quantity) = true) := by
  unfold validateForm
  split_ifs <;> simp_all

/-- `validateForm` reports no failure exactly when all four checks
pass. -/
theorem validateForm_nil_iff (fd : FormData) :
    validateForm fd = [] ↔
      (jsTrim fd.title ≠ "" ∧ fd.s3Url ≠ ""
       ∧ fd.price ≠ "" ∧ jsNumLe0 (jsParseFloat fd.price) = false
       ∧ fd.quantity ≠ "" ∧ jsIntLe0 (jsParseInt fd.quantity) = false) := by
  unfold validateForm
  split_ifs <;> simp_all <;> tauto

/-- When validation fails, `handleSubmit` surfaces the whole failure
list joined by `; ` and submits nothing. -/
theorem handleSubmit_error_of_ne_nil (fd : FormData) (h : validateForm fd ≠ []) :
    handleSubmit fd = Except.error (String.intercalate "; " (validateForm fd)) := by
  have hl : 0 < (validateForm fd).length := List.length_pos.mpr h
  simp [handleSubmit, hl]

/-- When validation passes, `handleSubmit` submits the transformed
record. -/
theorem handleSubmit_ok_of_nil (fd : FormData) (h : validateForm fd = []) :
    handleSubmit fd = Except.ok (transformToBluerayItem fd) := by
  simp [handleSubmit, h]

/-- Claim C1: for every record submitted for validation, `validateForm`
returns the complete ordered list of all validation failures — each of
the four checks (title, photo upload, price, quantity) contributes its
message exactly when it fails, independently of the other checks, the
result is always an ordered sublist of the full four-message list, and
on any failure `handleSubmit` hands the caller all collected reasons
joined together rather than stopping at the first. -/
theorem validateForm_reports_all_failures (fd : FormData) :
    ("Listing title is required" ∈ validateForm fd ↔ jsTrim fd.title = "")
    ∧ ("Please upload image to AWS first" ∈ validateForm fd ↔ fd.s3Url = "")
    ∧ ("Valid price is required" ∈ validateForm fd ↔
        (fd.price = "" ∨ jsNumLe0 (jsParseFloat fd.price) = true))
    ∧ ("Valid quantity is required" ∈ validateForm fd ↔
        (fd.quantity = "" ∨ jsIntLe0 (jsParseInt fd.quantity) = true))
    ∧ List.Sublist (validateForm fd)
        ["Listing title is required", "Please upload image to AWS first",
         "Valid price is required", "Valid quantity is required"]
    ∧ (validateForm fd ≠ [] →
        handleSubmit fd = Except.error (String.intercalate "; " (validateForm fd))) := by
  refine ⟨mem_validateForm_title fd, mem_validateForm_photo fd, mem_validateForm_price fd,
    mem_validateForm_quantity fd, ?_, handleSubmit_error_of_ne_nil fd⟩
  unfold validateForm
  split_ifs <;> decide

/-- Witness for C1: on a form failing all four checks, all four
messages are returned together, and the caller receives them joined. -/
theorem validateForm_reports_all_failures_witness :
    validateForm fdAllBad =
      ["Listing title is required", "Please upload image to AWS first",
       "Valid price is required", "Valid quantity is required"]
    ∧ handleSubmit fdAllBad = Except.error
        ("Listing title is required; Please upload image to AWS first; " ++
         "Valid price is required; Valid quantity is required") := by
  have h := (validateForm_reports_all_failures fdAllBad).2.2.2.2.2 (by decide)
  exact ⟨by decide, by rw [h]; rfl⟩

/-- Claim C2: a record with zero photo references (no uploaded image
URL) always fails validation with the image-upload failure entry, is
never appended to the store, and the store length is unchanged. -/
theorem missing_photo_never_stored (s : PageState) (fd : FormData) (h : fd.s3Url = "") :
    "Please upload image to AWS first" ∈ validateForm fd
    ∧ (submitFlow s fd).1.submittedItems = s.submittedItems
    ∧ (submitFlow s fd).1.submittedItems.length = s.submittedItems.length := by
  have hm : "Please upload image to AWS first" ∈ validateForm fd :=
    (mem_validateForm_photo fd).mpr h
  have hne : validateForm fd ≠ [] := by
    intro h0
    rw [h0] at hm
    exact absurd hm (List.not_mem_nil _)
  have he := handleSubmit_error_of_ne_nil fd hne
  exact ⟨hm, by simp [submitFlow, he], by simp [submitFlow, he]⟩

/-- Witness for C2: submitting the photo-less form against the empty
store reports the photo entry and leaves the store at length 0. -/
theorem missing_photo_never_stored_witness :
    fdNoPhoto.s3Url = ""
    ∧ ("Please upload image to AWS first" ∈ validateForm fdNoPhoto
       ∧ (submitFlow pageEmpty fdNoPhoto).1.submittedItems = pageEmpty.submittedItems
       ∧ (submitFlow pageEmpty fdNoPhoto).1.submittedItems.length
          = pageEmpty.submittedItems.length)
    ∧ pageEmpty.submittedItems.length = 0 :=
  ⟨rfl, missing_photo_never_stored pageEmpty fdNoPhoto rfl, rfl⟩

/-- Counterexample to C3: the form `fdNaNPrice`, whose price field is
the non-numeric string `abc`, passes validation with no failure, yet
the record built from it has a `NaN` price, which is not strictly
greater than 0 — so validation does not accept only records with a
positive suggested price. -/
theorem validateForm_accepts_nan_price :
    validateForm fdNaNPrice = []
    ∧ (transformToBluerayItem fdNaNPrice).custom_fields.price = none := by
  exact ⟨by decide, by decide⟩

/-- Claim C3 (amended): a record is accepted by validation iff its
trimmed title is non-empty, an image URL is present, its price and
quantity fields are non-empty, and whenever those fields parse to a
number that number is strictly positive — a non-numeric price or
quantity (parsing to `NaN`) is also accepted, because the JS
comparison `NaN <= 0` is false. -/
theorem validateForm_acceptance_characterisation (fd : FormData) :
    validateForm fd = [] ↔
      (jsTrim fd.title ≠ "" ∧ fd.s3Url ≠ ""
       ∧ fd.price ≠ "" ∧ (∀ d, jsParseFloat fd.price = some d → 0 < d.toRat)
       ∧ fd.quantity ≠ "" ∧ (∀ n, jsParseInt fd.quantity = some n → 0 < n)) := by
  rw [validateForm_nil_iff, jsNumLe0_eq_false_iff, jsIntLe0_eq_false_iff]

/-- Counterexample to C4: the condition select offers `Like New`,
which is not in the condition domain stated by the spec (`New other`
is absent from the select), and a record submitted with it passes
validation and stores the string `Like New` verbatim. -/
theorem like_new_accepted_and_stored :
    "Like New" ∈ conditionOptions
    ∧ "Like New" ∉ specConditionDomain
    ∧ "New other" ∉ conditionOptions
    ∧ handleSubmit fdLikeNew = Except.ok (transformToBluerayItem fdLikeNew)
    ∧ (transformToBluerayItem fdLikeNew).condition = "Like New" := by
  exact ⟨by decide, by decide, by decide, rfl, rfl⟩

/-- Claim C4 (amended): the condition field of a record built from the
form is always the selected string itself, carried verbatim with no
numeric mapping; for forms whose condition is one of the select's
fixed options {New, Like New, Very Good, Good, Acceptable, Used} the
stored condition stays in that domain. -/
theorem condition_stays_in_select_domain (fd : FormData)
    (h : fd.condition ∈ conditionOptions) :
    (transformToBluerayItem fd).condition = fd.condition
    ∧ (transformToBluerayItem fd).condition ∈ conditionOptions :=
  ⟨rfl, h⟩

/-- Witness for C4 (amended): the `Like New` form stores its selected
condition unchanged, inside the select domain. -/
theorem condition_stays_in_select_domain_witness :
    fdLikeNew.condition ∈ conditionOptions
    ∧ ((transformToBluerayItem fdLikeNew).condition = fdLikeNew.condition
       ∧ (transformToBluerayItem fdLikeNew).condition ∈ conditionOptions) :=
  ⟨by decide, condition_stays_in_select_domain fdLikeNew (by decide)⟩

/-- Claim C5: resolving the override `condition = like new` with no
explicit condition field yields the enum value `New other` through the
fixed coercion lookup table, not the configured default, while an
override value missing from the table fails with `UnrecognizedOverride`
instead of silently falling back to the default. -/
theorem override_like_new_gives_new_other :
    resolveCondition none [("condition", "like new")] = Except.ok "New other"
    ∧ ("New other" : String) ≠ defaultCondition
    ∧ resolveCondition none [("condition", "mint")]
        = Except.error (ResolveError.UnrecognizedOverride "condition" "mint") := by
  exact ⟨rfl, by decide, rfl⟩

/-- Counterexample to C6: two exports of different stores holding the
same number of (different) items are saved under the identical file
name — the name carries no timestamp, so distinct exports can collide
and overwrite one another. -/
theorem export_file_name_collision :
    pageA.submittedItems ≠ pageB.submittedItems
    ∧ (downloadCSV pageA).2.fileName = some "ebay_bluray_listings_1_items.csv"
    ∧ (downloadCSV pageB).2.fileName = some "ebay_bluray_listings_1_items.csv" := by
  exact ⟨by decide, by decide, by decide⟩

/-- Claim C6 (amended): the export file name encodes the item count
and nothing else (`ebay_bluray_listings_{count}_items.csv`); any two
exports of stores with equal item counts are saved under the same file
name, so uniqueness of names across exports is not guaranteed. -/
theorem export_file_name_encodes_count_only (s t : PageState)
    (hs : s.submittedItems ≠ [])
    (ht : t.submittedItems.length = s.submittedItems.length) :
    (downloadCSV s).2.fileName =
      some ("ebay_bluray_listings_" ++ toString s.submittedItems.length ++ "_items.csv")
    ∧ (downloadCSV t).2.fileName = (downloadCSV s).2.fileName := by
  have hsl : ¬ s.submittedItems.length = 0 := by
    simpa [List.length_eq_zero] using hs
  have htl : ¬ t.submittedItems.length = 0 := by
    rw [ht]
    exact hsl
  constructor
  · simp [downloadCSV, hsl]
  · simp [downloadCSV, hsl, htl, ht]

/-- Witness for C6 (amended): the two one-item stores export under one
and the same count-derived name. -/
theorem export_file_name_encodes_count_only_witness :
    pageA.submittedItems ≠ []
    ∧ pageB.submittedItems.length = pageA.submittedItems.length
    ∧ ((downloadCSV pageA).2.fileName =
        some ("ebay_bluray_listings_" ++ toString pageA.submittedItems.length ++ "_items.csv")
       ∧ (downloadCSV pageB).2.fileName = (downloadCSV pageA).2.fileName) :=
  ⟨by decide, by decide,
   export_file_name_encodes_count_only pageA pageB (by decide) (by decide)⟩

/-- Counterexample to C7: exporting the empty store does not produce a
header-only file — no request is made and no file is saved at all; the
caller instead gets the error message `No items to export`. -/
theorem empty_export_error_and_no_file :
    (downloadCSV pageEmpty).2.fileName = none
    ∧ (downloadCSV pageEmpty).2.request = none
    ∧ (downloadCSV pageEmpty).1.downloadError = "No items to export" := by
  exact ⟨by decide, by decide, by decide⟩

/-- Claim C7 (amended): exporting when the store is empty is rejected
client-side as an error: the caller-visible message `No items to
export` is set, no request is issued and no file of any kind is
produced. -/
theorem downloadCSV_empty_store_aborts (s : PageState) (h : s.submittedItems = []) :
    downloadCSV s =
      ({ s with downloadError := "No items to export" },
       { request := none, fileName := none }) := by
  simp [downloadCSV, h]

/-- Witness for C7 (amended): the empty page state aborts its export
with the error message and no file. -/
theorem downloadCSV_empty_store_aborts_witness :
    downloadCSV pageEmpty =
      ({ pageEmpty with downloadError := "No items to export" },
       { request := none, fileName := none }) :=
  downloadCSV_empty_store_aborts pageEmpty rfl

/-- Claim C8: export is non-destructive and idempotent in content — an
export leaves the stored sequence of records untouched, and a second
export with no intervening add or clear posts exactly the same request
body (hence rows with identical field values). -/
theorem export_nondestructive_and_idempotent (s : PageState) :
    (downloadCSV s).1.submittedItems = s.submittedItems
    ∧ (downloadCSV ((downloadCSV s).1)).2.request = (downloadCSV s).2.request := by
  by_cases h : s.submittedItems.length = 0 <;> simp [downloadCSV, h]

/-- Claim C9: submitting a valid record appends its transformed form
at the end of the store — the resulting sequence is the old one with
the record appended, its last element is the record, and no submit
error is reported. -/
theorem valid_submission_appends_at_end (s : PageState) (fd : FormData)
    (h : validateForm fd = []) :
    (submitFlow s fd).1.submittedItems = s.submittedItems ++ [transformToBluerayItem fd]
    ∧ (submitFlow s fd).1.submittedItems.getLast? = some (transformToBluerayItem fd)
    ∧ (submitFlow s fd).2 = none := by
  have hok := handleSubmit_ok_of_nil fd h
  refine ⟨?_, ?_, ?_⟩ <;>
    simp [submitFlow, hok, handleItemSubmit, List.getLast?_concat]

/-- Witness for C9: submitting the valid second record after the first
yields the two records in insertion order with the new one last. -/
theorem valid_submission_appends_at_end_witness :
    validateForm fdItemB = []
    ∧ ((submitFlow pageA fdItemB).1.submittedItems
        = pageA.submittedItems ++ [transformToBluerayItem fdItemB]
       ∧ (submitFlow pageA fdItemB).1.submittedItems.getLast?
        = some (transformToBluerayItem fdItemB)
       ∧ (submitFlow pageA fdItemB).2 = none) :=
  ⟨by decide, valid_submission_appends_at_end pageA fdItemB (by decide)⟩

/-- Claim C10: every record that passes validation and is submitted
has a photos list holding exactly the one uploaded image URL, which is
non-empty, so both the non-empty lower bound and the at-most-12 upper
bound on photo references hold for every stored record. -/
theorem submitted_record_single_photo (fd : FormData) (h : validateForm fd = []) :
    fd.s3Url ≠ ""
    ∧ handleSubmit fd = Except.ok (transformToBluerayItem fd)
    ∧ (transformToBluerayItem fd).photos = [fd.s3Url]
    ∧ (transformToBluerayItem fd).photos.length = 1
    ∧ 1 ≤ (transformToBluerayItem fd).photos.length
    ∧ (transformToBluerayItem fd).photos.length ≤ 12 := by
  have h2 := (validateForm_nil_iff fd).mp h
  exact ⟨h2.2.1, handleSubmit_ok_of_nil fd h, rfl, rfl, le_rfl, by show (1:ℕ) ≤ 12; decide⟩

/-- Witness for C10: the valid record of `fdItemA` stores exactly its
one uploaded URL. -/
theorem submitted_record_single_photo_witness :
    validateForm fdItemA = []
    ∧ (fdItemA.s3Url ≠ ""
       ∧ handleSubmit fdItemA = Except.ok (transformToBluerayItem fdItemA)
       ∧ (transformToBluerayItem fdItemA).photos = [fdItemA.s3Url]
       ∧ (transformToBluerayItem fdItemA).photos.length = 1
       ∧ 1 ≤ (transformToBluerayItem fdItemA).photos.length
       ∧ (transformToBluerayItem fdItemA).photos.length ≤ 12) :=
  ⟨by decide, submitted_record_single_photo fdItemA (by decide)⟩
